import Mathlib

/-!
Verification of `src/music_player.py` (a Tkinter + pydub music player).

The program keeps its state in module-level globals (`audio_segment`,
`current_file_name`, `is_playing`) and in the text of three Tkinter labels
plus the value of the volume slider.  We embed that state as the structure
`AppState` and each handler (`load_file`, `play_audio`, `stop_audio`,
`update_volume`) as a pure state transformer that additionally returns the
list of externally visible effects it performs (dialogs, thread start,
process kill), in order.
-/

/-- Modelled from the spec: the decoded audio buffer produced by the external
pydub backend (`AudioSegment`), which is not part of this repository.  Per the
spec's Gain Adjuster contract (§4.1) and the audio decode/render contracts
(§6), a decoded buffer is opaque sample data, and adding an integer decibel
value to a segment (`segment + db`, the pydub gain operation used at
`music_player.py:86`) returns a NEW segment whose total applied gain is the
old gain plus `db`, leaving the raw sample data of the operand untouched. -/
structure AudioSegment where
  raw : List Int
  gainDb : Int
deriving DecidableEq, Repr

/-- Modelled from the spec: pydub's `segment + db` gain operation (the
Gain Adjuster's `adjust`).  It adds the decibel offset on top of any gain
already carried by the segment and does not touch the raw samples; there is
no special case for `db = 0`. -/
def applyGain (seg : AudioSegment) (db : Int) : AudioSegment :=
  { seg with gainDb := seg.gainDb + db }

/-- Externally visible effects performed by the handlers: error/warning
dialogs (`messagebox.showerror` / `showwarning`), starting the background
playback thread with the buffer it is given, and the system-wide kill of the
external player process (`taskkill` / `pkill` at `music_player.py:133-135`). -/
inductive Event where
  | errorDialog (title msg : String)
  | warningDialog (title msg : String)
  | startThread (audio : AudioSegment)
  | killPlayerProcesses
deriving DecidableEq, Repr

/-- The program state: the three globals of `music_player.py:24-26`, the
slider value, and the texts of the file-name, status and volume-value
labels. -/
structure AppState where
  audio_segment : Option AudioSegment
  current_file_name : Option String
  is_playing : Bool
  volume_slider : Int
  label_file_name : String
  label_status : String
  label_volume_value : String
deriving DecidableEq, Repr

/-- The state right after the GUI is built (`music_player.py:155-241`). -/
def initialState : AppState :=
  { audio_segment := none
    current_file_name := none
    is_playing := false
    volume_slider := 0
    label_file_name := "File: Belum ada file dipilih"
    label_status := "Status: Siap"
    label_volume_value := "+0 dB" }

/-- Python's `f"{v:+d} dB"` used by `update_volume` (`music_player.py:147`). -/
def fmtDb (v : Int) : String :=
  (if 0 ≤ v then "+" ++ toString v else toString v) ++ " dB"

/-- `update_volume(value)` (`music_player.py:145-147`): the slider callback,
which refreshes the volume-value label. -/
def update_volume (s : AppState) (value : Int) : AppState :=
  { s with label_volume_value := fmtDb value }

/-- Moving the slider to `value`: Tk stores the value and invokes the
`command` callback `update_volume` (`music_player.py:221-227`). -/
def set_volume_slider (s : AppState) (value : Int) : AppState :=
  update_volume { s with volume_slider := value } value

/-- Python's `str.split(sep)` for a one-character separator, on the
character list of the string: `"a//b".split("/") = ["a", "", "b"]` and
`"".split("/") = [""]`. -/
def splitOnChar (sep : Char) : List Char → List (List Char)
  | [] => [[]]
  | c :: cs =>
      if c = sep then [] :: splitOnChar sep cs
      else
        match splitOnChar sep cs with
        | [] => [[c]]
        | piece :: rest => (c :: piece) :: rest

/-- The last element of a list of split pieces, Python's `[-1]`
(`splitOnChar` never returns an empty list, so the default is unused). -/
def lastPiece (l : List (List Char)) : List Char := l.reverse.headD []

/-- `file_path.split("/")[-1].split("\\")[-1]` (`music_player.py:58`): both
separators are single characters, `/` and `\`. -/
def basename (path : String) : String :=
  String.mk (lastPiece (splitOnChar '\\' (lastPiece (splitOnChar '/' path.data))))

/-- `load_file()` (`music_player.py:36-64`).  The file-picker result is the
`file_path` argument (`""` models a cancelled dialog, which returns with no
effect); the external decoder's outcome for that path is the `decodeResult`
argument (`AudioSegment.from_file` either returns a buffer or raises with a
message `e`).  On success it stores the buffer, stores and displays the
basename, and resets the slider to 0 (which fires `update_volume`); on
failure it only shows the error dialog. -/
def load_file (s : AppState) (file_path : String)
    (decodeResult : Except String AudioSegment) : AppState × List Event :=
  if file_path = "" then (s, [])
  else
    match decodeResult with
    | Except.ok seg =>
        let name := basename file_path
        ({ s with audio_segment := some seg
                  current_file_name := some name
                  label_file_name := "File: " ++ name
                  volume_slider := 0
                  label_volume_value := fmtDb 0 }, [])
    | Except.error e =>
        (s, [Event.errorDialog "Error" ("Gagal memuat file:\n" ++ e)])

/-- `stop_audio()` (`music_player.py:115-137`): returns immediately when not
playing; otherwise clears the flag, sets the status label and issues the
system-wide player-process kill. -/
def stop_audio (s : AppState) : AppState × List Event :=
  if s.is_playing = false then (s, [])
  else
    ({ s with is_playing := false, label_status := "Status: Dihentikan" },
     [Event.killPlayerProcesses])

/-- `play_audio()` (`music_player.py:72-94`): warns and returns when no file
is loaded; stops first when already playing; then reads the slider, applies
the gain to the stored buffer, flips the flag, updates the status label and
starts the background thread on the adjusted buffer. -/
def play_audio (s : AppState) : AppState × List Event :=
  match s.audio_segment with
  | none =>
      (s, [Event.warningDialog "Peringatan"
            "Belum ada file yang dimuat!\nKlik 'Load File' terlebih dahulu."])
  | some seg =>
      let stopped := if s.is_playing then stop_audio s else (s, [])
      let s1 := stopped.1
      let volume_db := s1.volume_slider
      let adjusted_audio := applyGain seg volume_db
      ({ s1 with is_playing := true,
                 label_status := "Status: Sedang Memutar..." },
       stopped.2 ++ [Event.startThread adjusted_audio])

/-- A mutation of shared or UI state that `_play_in_thread` can perform:
writing the `is_playing` global or writing the status label. -/
inductive SharedMutation where
  | setIsPlaying (b : Bool)
  | setStatusLabel (t : String)
deriving DecidableEq, Repr

/-- How `_play_in_thread` applies a mutation: directly on the background
thread, or marshaled onto the Tk event loop via `root.after(0, ...)`. -/
inductive ThreadAction where
  | direct (m : SharedMutation)
  | marshaled (m : SharedMutation)
deriving DecidableEq, Repr

/-- Whether an action is applied through the `root.after` marshaling. -/
def ThreadAction.isMarshaled : ThreadAction → Bool
  | ThreadAction.direct _ => false
  | ThreadAction.marshaled _ => true

/-- The mutations performed by the `finally` block of `_play_in_thread`
(`music_player.py:104-107`), in order: `is_playing = False` is executed
directly on the background thread, then the status-label update is posted
onto the event loop with `root.after(0, ...)`. -/
def play_in_thread_actions : List ThreadAction :=
  [ThreadAction.direct (SharedMutation.setIsPlaying false),
   ThreadAction.marshaled (SharedMutation.setStatusLabel "Status: Selesai")]

/-- The effect on the application state of the background thread finishing
(its `finally` block having run and the marshaled label update having been
processed by the event loop): `music_player.py:104-107`. -/
def play_in_thread_complete (s : AppState) : AppState :=
  { s with is_playing := false, label_status := "Status: Selesai" }

/-- The spec's PlaybackState enumeration {Idle, Playing, Stopped, Finished}
(§3). -/
inductive PlaybackState where
  | Idle
  | Playing
  | Stopped
  | Finished
deriving DecidableEq, Repr

/-- Refinement mapping from the concrete state to the spec's PlaybackState:
`is_playing` marks Playing; otherwise the status label distinguishes
Stopped ("Status: Dihentikan") and Finished ("Status: Selesai") from
Idle. -/
def playbackState (s : AppState) : PlaybackState :=
  if s.is_playing then PlaybackState.Playing
  else if s.label_status = "Status: Dihentikan" then PlaybackState.Stopped
  else if s.label_status = "Status: Selesai" then PlaybackState.Finished
  else PlaybackState.Idle

/-- A sample decoded buffer, as the decoder would return it (no gain applied
yet). -/
def demoSeg : AudioSegment := { raw := [3, -5, 7], gainDb := 0 }

/-- A second sample decoded buffer. -/
def demoSeg2 : AudioSegment := { raw := [1, 2], gainDb := 0 }

/-- A concrete reachable state in which a track is loaded and playback is
active: load `song.mp3` into the fresh application, then press Play. -/
def demoPlayingState : AppState :=
  (play_audio (load_file initialState "song.mp3" (Except.ok demoSeg)).1).1

/-- Claim C1 (counterexample): a successful `load_file` does NOT transition
the playback state to Idle.  Concretely: load a file, play it (state
Playing), then load a second file successfully — `load_file` never touches
`is_playing` or the status label, so the state is still Playing, not
Idle. -/
theorem load_while_playing_stays_playing :
    playbackState (load_file (play_audio
        (load_file initialState "a.mp3" (Except.ok demoSeg)).1).1
        "b.mp3" (Except.ok demoSeg2)).1 = PlaybackState.Playing ∧
    decide (playbackState (load_file (play_audio
        (load_file initialState "a.mp3" (Except.ok demoSeg)).1).1
        "b.mp3" (Except.ok demoSeg2)).1 = PlaybackState.Idle) = false := by
  decide

/-- Claim C1 (amended): for every successful `load_file` call, the stored
track is replaced by the new buffer, the slider is reset to 0, and the
displayed file name is updated to the new file's basename; the playback
state (the `is_playing` flag and the status label) is left unchanged
rather than transitioned to Idle. -/
theorem load_success_updates_track (s : AppState) (path : String)
    (seg : AudioSegment) (h : ¬ path = "") :
    (load_file s path (Except.ok seg)).1.audio_segment = some seg ∧
    (load_file s path (Except.ok seg)).1.current_file_name
      = some (basename path) ∧
    (load_file s path (Except.ok seg)).1.label_file_name
      = "File: " ++ basename path ∧
    (load_file s path (Except.ok seg)).1.volume_slider = 0 ∧
    (load_file s path (Except.ok seg)).1.is_playing = s.is_playing ∧
    (load_file s path (Except.ok seg)).1.label_status = s.label_status ∧
    playbackState (load_file s path (Except.ok seg)).1 = playbackState s := by
  simp [load_file, h, playbackState]

/-- Witness for `load_success_updates_track` at a concrete input. -/
theorem load_success_updates_track_witness :
    (load_file initialState "song.mp3" (Except.ok demoSeg)).1.audio_segment
      = some demoSeg ∧
    (load_file initialState "song.mp3"
        (Except.ok demoSeg)).1.current_file_name
      = some (basename "song.mp3") ∧
    (load_file initialState "song.mp3" (Except.ok demoSeg)).1.label_file_name
      = "File: " ++ basename "song.mp3" ∧
    (load_file initialState "song.mp3" (Except.ok demoSeg)).1.volume_slider
      = 0 ∧
    (load_file initialState "song.mp3" (Except.ok demoSeg)).1.is_playing
      = initialState.is_playing ∧
    (load_file initialState "song.mp3" (Except.ok demoSeg)).1.label_status
      = initialState.label_status ∧
    playbackState (load_file initialState "song.mp3" (Except.ok demoSeg)).1
      = playbackState initialState :=
  load_success_updates_track initialState "song.mp3" demoSeg (by decide)

/-- Claim C2: when decoding fails, `load_file` shows exactly one error
dialog and leaves the whole state — previously loaded buffer, stored file
name, file-name label, slider value, status label and all — unchanged. -/
theorem load_failure_atomic (s : AppState) (path e : String)
    (h : ¬ path = "") :
    load_file s path (Except.error e)
      = (s, [Event.errorDialog "Error" ("Gagal memuat file:\n" ++ e)]) := by
  simp [load_file, h]

/-- Witness for `load_failure_atomic` at a concrete input. -/
theorem load_failure_atomic_witness :
    load_file initialState "missing.mp3" (Except.error "No such file")
      = (initialState,
         [Event.errorDialog "Error" "Gagal memuat file:\nNo such file"]) :=
  load_failure_atomic initialState "missing.mp3" "No such file" (by decide)

/-- Claim C10: on every successful load, the stored and displayed file name
is the substring of the path after the final `/` and then after the final
`\`, so POSIX-style and Windows-style paths both display only the base file
name. -/
theorem load_displays_basename (s : AppState) (path : String)
    (seg : AudioSegment) (h : ¬ path = "") :
    (load_file s path (Except.ok seg)).1.current_file_name
      = some (basename path) ∧
    (load_file s path (Except.ok seg)).1.label_file_name
      = "File: " ++ basename path ∧
    basename "/home/u/music/song.mp3" = "song.mp3" ∧
    basename "C:\\Music\\song.mp3" = "song.mp3" := by
  refine ⟨?_, ?_, by decide, by decide⟩ <;> simp [load_file, h]

/-- Witness for `load_displays_basename` at a concrete input. -/
theorem load_displays_basename_witness :
    (load_file initialState "/home/u/music/song.mp3"
        (Except.ok demoSeg)).1.current_file_name
      = some (basename "/home/u/music/song.mp3") ∧
    (load_file initialState "/home/u/music/song.mp3"
        (Except.ok demoSeg)).1.label_file_name
      = "File: " ++ basename "/home/u/music/song.mp3" ∧
    basename "/home/u/music/song.mp3" = "song.mp3" ∧
    basename "C:\\Music\\song.mp3" = "song.mp3" :=
  load_displays_basename initialState "/home/u/music/song.mp3" demoSeg
    (by decide)

/-- Claim C4: the gain applied to the rendered audio is the slider value
read at the moment `play_audio` is invoked, applied to the ORIGINAL stored
buffer, which is never replaced or mutated by playing; a second `play_audio`
at the same slider setting hands the background thread the very same
`applyGain seg v` buffer, so gain never compounds across calls. -/
theorem play_gain_never_compounds (s : AppState) (seg : AudioSegment)
    (h : s.audio_segment = some seg) :
    Event.startThread (applyGain seg s.volume_slider) ∈ (play_audio s).2 ∧
    (play_audio s).1.audio_segment = some seg ∧
    (play_audio s).1.volume_slider = s.volume_slider ∧
    Event.startThread (applyGain seg s.volume_slider)
      ∈ (play_audio (play_audio s).1).2 ∧
    (play_audio (play_audio s).1).1.audio_segment = some seg ∧
    (applyGain seg s.volume_slider).gainDb = seg.gainDb + s.volume_slider ∧
    (applyGain seg s.volume_slider).raw = seg.raw := by
  rcases s with ⟨a, n, p, v, lf, ls, lv⟩
  cases p <;> simp_all [play_audio, stop_audio, applyGain]

/-- Witness for `play_gain_never_compounds` at a concrete input. -/
theorem play_gain_never_compounds_witness :
    Event.startThread (applyGain demoSeg demoPlayingState.volume_slider)
      ∈ (play_audio demoPlayingState).2 ∧
    (play_audio demoPlayingState).1.audio_segment = some demoSeg ∧
    (play_audio demoPlayingState).1.volume_slider
      = demoPlayingState.volume_slider ∧
    Event.startThread (applyGain demoSeg demoPlayingState.volume_slider)
      ∈ (play_audio (play_audio demoPlayingState).1).2 ∧
    (play_audio (play_audio demoPlayingState).1).1.audio_segment
      = some demoSeg ∧
    (applyGain demoSeg demoPlayingState.volume_slider).gainDb
      = demoSeg.gainDb + demoPlayingState.volume_slider ∧
    (applyGain demoSeg demoPlayingState.volume_slider).raw = demoSeg.raw :=
  play_gain_never_compounds demoPlayingState demoSeg (by decide)

/-- Claim C5: applying a gain is a pure total transformation of the buffer —
the raw samples are untouched for every decibel value in range, and gain 0
is the identity on the whole buffer by construction (`gainDb + 0 = gainDb`,
with no special case for 0 in `applyGain`). -/
theorem adjust_gain_pure (seg : AudioSegment) (db : Int)
    (_h : -20 ≤ db ∧ db ≤ 10) :
    (applyGain seg db).raw = seg.raw ∧
    (applyGain seg db).gainDb = seg.gainDb + db ∧
    applyGain seg 0 = seg := by
  refine ⟨rfl, rfl, ?_⟩
  simp [applyGain]

/-- Witness for `adjust_gain_pure` at a concrete input. -/
theorem adjust_gain_pure_witness :
    (applyGain demoSeg (-10)).raw = demoSeg.raw ∧
    (applyGain demoSeg (-10)).gainDb = demoSeg.gainDb + (-10) ∧
    applyGain demoSeg 0 = demoSeg :=
  adjust_gain_pure demoSeg (-10) (by decide)

/-- Claim C6: calling `play_audio` when no track has ever been loaded shows
a warning dialog (not an error dialog), starts no background thread, and
changes nothing: the returned state is exactly the input state. -/
theorem play_without_load_warns (s : AppState)
    (h : s.audio_segment = none) :
    play_audio s
      = (s, [Event.warningDialog "Peringatan"
              "Belum ada file yang dimuat!\nKlik 'Load File' terlebih dahulu."]) := by
  simp [play_audio, h]

/-- Witness for `play_without_load_warns` at a concrete input. -/
theorem play_without_load_warns_witness :
    play_audio initialState
      = (initialState,
         [Event.warningDialog "Peringatan"
           "Belum ada file yang dimuat!\nKlik 'Load File' terlebih dahulu."]) :=
  play_without_load_warns initialState rfl

/-- Claim C7: when playback is not active, `stop_audio` is a no-op with no
effect at all; hence after a first `stop_audio` from the Playing state
(which flips the flag, sets the label and issues exactly one process-kill),
a second consecutive `stop_audio` changes nothing and issues no further
kill. -/
theorem stop_idempotent (s : AppState) :
    (s.is_playing = false → stop_audio s = (s, [])) ∧
    (s.is_playing = true →
      (stop_audio s).1.is_playing = false ∧
      (stop_audio s).1.label_status = "Status: Dihentikan" ∧
      (stop_audio s).2 = [Event.killPlayerProcesses] ∧
      stop_audio (stop_audio s).1 = ((stop_audio s).1, [])) := by
  constructor
  · intro h
    simp [stop_audio, h]
  · intro h
    simp [stop_audio, h]

/-- Witness for `stop_idempotent` at a concrete input. -/
theorem stop_idempotent_witness :
    stop_audio (stop_audio demoPlayingState).1
      = ((stop_audio demoPlayingState).1, []) :=
  ((stop_idempotent demoPlayingState).2 (by decide)).2.2.2

/-- Claim C8: a `play_audio` call made while already Playing first performs
the stop (its process-kill effect precedes the thread start in the effect
list, and the flag/label pass through the stopped values) before starting
the background thread on the buffer adjusted by the slider value read at
invocation. -/
theorem play_while_playing_stops_first (s : AppState) (seg : AudioSegment)
    (h1 : s.audio_segment = some seg) (h2 : s.is_playing = true) :
    (play_audio s).2
      = [Event.killPlayerProcesses,
         Event.startThread (applyGain seg s.volume_slider)] ∧
    (play_audio s).1.is_playing = true ∧
    (play_audio s).1.label_status = "Status: Sedang Memutar..." ∧
    (play_audio s).1.audio_segment = some seg := by
  simp [play_audio, stop_audio, h1, h2]

/-- Witness for `play_while_playing_stops_first` at a concrete input. -/
theorem play_while_playing_stops_first_witness :
    (play_audio demoPlayingState).2
      = [Event.killPlayerProcesses,
         Event.startThread
           (applyGain demoSeg demoPlayingState.volume_slider)] ∧
    (play_audio demoPlayingState).1.is_playing = true ∧
    (play_audio demoPlayingState).1.label_status
      = "Status: Sedang Memutar..." ∧
    (play_audio demoPlayingState).1.audio_segment = some demoSeg :=
  play_while_playing_stops_first demoPlayingState demoSeg (by decide)
    (by decide)

/-- Claim C3 (counterexample): not every shared-state mutation performed by
the background playback thread is marshaled onto the event loop — the
`is_playing = False` write in the `finally` block of `_play_in_thread`
(`music_player.py:106`) is executed directly on the background thread. -/
theorem thread_mutates_flag_directly :
    ThreadAction.direct (SharedMutation.setIsPlaying false)
      ∈ play_in_thread_actions ∧
    play_in_thread_actions.all ThreadAction.isMarshaled = false := by
  decide

/-- Claim C3 (amended): of the two mutations the background thread performs,
only the status-label (UI widget) update is marshaled onto the event loop
via `root.after(0, ...)`; the `is_playing` flag flip is the one and only
mutation applied directly from the background thread. -/
theorem thread_marshals_label_update_only :
    play_in_thread_actions.filter (fun a => ! ThreadAction.isMarshaled a)
      = [ThreadAction.direct (SharedMutation.setIsPlaying false)] ∧
    play_in_thread_actions.filter ThreadAction.isMarshaled
      = [ThreadAction.marshaled
          (SharedMutation.setStatusLabel "Status: Selesai")] := by
  decide

/-- The state of claim C9's scenario right after Stop is pressed while
playback is in flight: load `song.mp3`, move the slider to -10, press Play,
then press Stop. -/
def scenarioAfterStop : AppState :=
  (stop_audio (play_audio (set_volume_slider
      (load_file initialState "song.mp3" (Except.ok demoSeg)).1 (-10))).1).1

/-- The scenario state after the interrupted background thread finishes:
its `finally` block runs and the marshaled label update is processed by the
event loop. -/
def scenarioAfterThreadEnd : AppState :=
  play_in_thread_complete scenarioAfterStop

/-- Claim C9 (counterexample): after Stop, the status label does NOT keep
reading the stopped text.  It reads "Status: Dihentikan" (Stopped) at
first, but once the interrupted background thread's `finally` block runs —
which the process kill itself brings about — the marshaled update overwrites
it with "Status: Selesai" (Finished). -/
theorem stop_label_overwritten_at_thread_end :
    scenarioAfterStop.label_status = "Status: Dihentikan" ∧
    scenarioAfterThreadEnd.label_status = "Status: Selesai" ∧
    decide (scenarioAfterThreadEnd.label_status = "Status: Dihentikan")
      = false := by
  decide

/-- Claim C9 (amended): in the scenario load `song.mp3`, set gain to -10,
Play, then Stop while playback is in flight, the status label reads
"Status: Dihentikan" (Stopped) right after the Stop — but only until the
interrupted background thread completes, at which point it reads
"Status: Selesai" (Finished); the loaded file-name label reads
"File: song.mp3" throughout. -/
theorem scenario_stop_labels :
    scenarioAfterStop.label_status = "Status: Dihentikan" ∧
    playbackState scenarioAfterStop = PlaybackState.Stopped ∧
    scenarioAfterStop.label_file_name = "File: song.mp3" ∧
    scenarioAfterStop.current_file_name = some "song.mp3" ∧
    scenarioAfterThreadEnd.label_status = "Status: Selesai" ∧
    playbackState scenarioAfterThreadEnd = PlaybackState.Finished ∧
    scenarioAfterThreadEnd.label_file_name = "File: song.mp3" ∧
    scenarioAfterThreadEnd.current_file_name = some "song.mp3" := by
  decide
